import Mathlib

/-!
Shallow embedding of the Standard VTOL transition manager
(`src/modules/vtol_att_control/standard.cpp`): the flight-mode state
machine (`Standard::update_vtol_state`), the transition controller
(`Standard::update_transition_state`) and the actuator mixer
(`Standard::fill_actuator_outputs`).

Machine floats are modelled as exact rationals; a possibly-NaN float
(the calibrated airspeed) is modelled as `Option ℚ`, with `none`
standing for a non-finite value, so that every use of the value in the
code is guarded exactly where `PX4_ISFINITE` guards it.  Monotonic
microsecond timestamps are `ℕ`.  Base-class and library facilities that
are not part of the translated file (quaternion-from-Euler construction,
the degree-to-radian constant, the slew-rate limiters, the
back-transition pitch shaping) are abstracted as explicit function
parameters collected in `Ext`.
-/

namespace Standard

/-- The four flight modes of `Standard::_vtol_schedule.flight_mode`. -/
inductive vtol_mode where
  | MC_MODE
  | TRANSITION_TO_FW
  | FW_MODE
  | TRANSITION_TO_MC
deriving DecidableEq, Repr

/-- The coarse public mode (`VtolType::_vtol_mode`). -/
inductive pubmode where
  | ROTARY_WING
  | FIXED_WING
  | TRANSITION_TO_FW
  | TRANSITION_TO_MC
deriving DecidableEq, Repr

/-- Quaternion with rational components, `(w, x, y, z)`. -/
structure Quat where
  w : ℚ
  x : ℚ
  y : ℚ
  z : ℚ
deriving DecidableEq, Repr

/-- Hamilton product of two quaternions. -/
def quatMul (a b : Quat) : Quat :=
  ⟨a.w * b.w - a.x * b.x - a.y * b.y - a.z * b.z,
   a.w * b.x + a.x * b.w + a.y * b.z - a.z * b.y,
   a.w * b.y - a.x * b.z + a.y * b.w + a.z * b.x,
   a.w * b.z + a.x * b.y - a.y * b.x + a.z * b.w⟩

/-- Squared norm of a quaternion. -/
def quatNormSq (a : Quat) : ℚ := a.w ^ 2 + a.x ^ 2 + a.y ^ 2 + a.z ^ 2

/-- Modelled from the spec: the quaternion inverse (`Quatf::inversed()`
of the matrix library, which is not under `src/`): the conjugate divided
by the squared norm. -/
def quatInv (a : Quat) : Quat :=
  let n := quatNormSq a
  ⟨a.w / n, -a.x / n, -a.y / n, -a.z / n⟩

/-- Modelled from the spec: rotating a vector by a quaternion `p`
(the action of the direction-cosine matrix built from `p` in the matrix
library, which is not under `src/`): the vector part of
`p ⬝ (0,v) ⬝ p⁻¹`. -/
def quatRotate (p : Quat) (vx vy vz : ℚ) : ℚ × ℚ × ℚ :=
  let r := quatMul (quatMul p ⟨0, vx, vy, vz⟩) (quatInv p)
  (r.x, r.y, r.z)

/-- Modelled from the spec: the body-X component of `(vx, vy, vz)`
rotated into the body frame by the inverse of the attitude quaternion
(`Dcmf(Quatf(q).inversed()) * Vector3f(vx, vy, vz)`, component 0). -/
def bodyVelX (q : Quat) (vx vy vz : ℚ) : ℚ :=
  (quatRotate (quatInv q) vx vy vz).1

/-- `math::constrain(x, lo, hi)`. -/
def constrain (x lo hi : ℚ) : ℚ :=
  if x < lo then lo else if x > hi then hi else x

/-- `FLT_EPSILON` (exactly `2 ^ (-23)`). -/
def FLT_EPSILON : ℚ := 1 / 8388608

/-- Microseconds to seconds, as in `(float)(now - start) * 1e-6f`. -/
def usToS (d : ℕ) : ℚ := (d : ℚ) / 1000000

/-- The parameters read by `standard.cpp`. -/
structure Params where
  vt_f_trans_thr : ℚ
  vt_psher_rmp_dt : ℚ
  vt_arsp_trans : ℚ
  vt_arsp_blend : ℚ
  vt_trans_timeout : ℚ
  vt_b_trans_dur : ℚ
  vt_b_trans_ramp : ℚ
  vt_b_trans_thr : ℚ
  vt_b_rev_del : ℚ
  vt_b_rev_out : ℚ
  vt_elev_mc_lock : Bool
  fw_arsp_mode : ℤ
  fw_psp_off : ℚ
  mpc_xy_cruise : ℚ
deriving DecidableEq, Repr

/-- A `vehicle_attitude_setpoint_s` record (the fields `standard.cpp`
reads or writes). -/
structure AttSp where
  timestamp : ℕ
  roll_body : ℚ
  pitch_body : ℚ
  yaw_body : ℚ
  thrust_body0 : ℚ
  thrust_body1 : ℚ
  thrust_body2 : ℚ
  q_d : Quat
deriving DecidableEq, Repr

/-- The state owned by the controller across ticks. -/
structure State where
  flight_mode : vtol_mode
  transition_start : ℕ
  mc_roll_weight : ℚ
  mc_pitch_weight : ℚ
  mc_yaw_weight : ℚ
  mc_throttle_weight : ℚ
  pusher_throttle : ℚ
  reverse_output : ℚ
  trans_finished_ts : ℕ
  vtol_transition_failsafe : Bool
  vtol_mode_pub : pubmode
  v_att_sp : AttSp
  airspeed_trans_blend_margin : ℚ
  flaps_state : ℚ
  spoiler_state : ℚ
  quadchute_transition_timeout : Bool
deriving DecidableEq, Repr

/-- The read-only snapshots consumed during one tick.
`can_transition_on_ground` and `minFrontTransTime` are the tick's
results of the base-class calls `can_transition_on_ground()` and
`getMinimumFrontTransitionTime()` (whose code is not under `src/`). -/
structure Inputs where
  now : ℕ
  is_fixed_wing_requested : Bool
  can_transition_on_ground : Bool
  minFrontTransTime : ℚ
  v_xy_valid : Bool
  vx : ℚ
  vy : ℚ
  vz : ℚ
  att_q : Quat
  calibrated_airspeed : Option ℚ
  flag_control_climb_rate_enabled : Bool
  mc_virtual_att_sp : AttSp
  fw_virtual_att_sp : AttSp
  dt : ℚ
deriving DecidableEq, Repr

/-- The projection of the schedule mode onto the coarse public mode
(lines 185-201 of `standard.cpp`). -/
def projectMode : vtol_mode → pubmode
  | .MC_MODE => .ROTARY_WING
  | .FW_MODE => .FIXED_WING
  | .TRANSITION_TO_FW => .TRANSITION_TO_FW
  | .TRANSITION_TO_MC => .TRANSITION_TO_MC

/-- The back-transition speed exit condition (lines 118-127): body-X
velocity against `MPC_XY_CRUISE` when local XY velocity is valid, else
calibrated airspeed against `MPC_XY_CRUISE` when finite, else false. -/
def backSpeedExit (p : Params) (i : Inputs) : Bool :=
  if i.v_xy_valid then
    decide (bodyVelX i.att_q i.vx i.vy i.vz < p.mpc_xy_cruise)
  else
    match i.calibrated_airspeed with
    | some a => decide (a < p.mpc_xy_cruise)
    | none => false

/-- The front-transition completion condition (lines 153-168):
`airspeed_triggers_transition`, `minimum_trans_time_elapsed`, then the
final `transition_to_fw` including `can_transition_on_ground()`. -/
def frontTransitionDone (p : Params) (i : Inputs) (t : ℚ) : Bool :=
  let triggers : Bool := i.calibrated_airspeed.isSome && decide (p.fw_arsp_mode = 0)
  let minElapsed : Bool := decide (t > i.minFrontTransTime)
  let toFW : Bool :=
    if minElapsed then
      if triggers then
        match i.calibrated_airspeed with
        | some a => decide (a ≥ p.vt_arsp_trans)
        | none => false
      else true
    else false
  toFW || i.can_transition_on_ground

/-- `Standard::update_vtol_state` (lines 73-202): the flight-mode state
machine.  The local `mc_weight` starts at `_mc_roll_weight` and is
copied into all four weight fields at the end. -/
def update_vtol_state (p : Params) (i : Inputs) (s : State) : State :=
  let t : ℚ := usToS (i.now - s.transition_start)
  let r : State × ℚ :=
    if s.vtol_transition_failsafe then
      ({ s with flight_mode := .MC_MODE,
                pusher_throttle := 0,
                reverse_output := 0,
                vtol_transition_failsafe :=
                  if ! i.is_fixed_wing_requested then false
                  else s.vtol_transition_failsafe },
       s.mc_roll_weight)
    else if ! i.is_fixed_wing_requested then
      match s.flight_mode with
      | .MC_MODE =>
          ({ s with flight_mode := .MC_MODE, reverse_output := 0 }, 1)
      | .FW_MODE =>
          ({ s with flight_mode := .TRANSITION_TO_MC,
                    transition_start := i.now,
                    reverse_output := p.vt_b_rev_out }, s.mc_roll_weight)
      | .TRANSITION_TO_FW =>
          ({ s with flight_mode := .MC_MODE,
                    pusher_throttle := 0,
                    reverse_output := 0 }, 1)
      | .TRANSITION_TO_MC =>
          if i.can_transition_on_ground || backSpeedExit p i
             || decide (t > p.vt_b_trans_dur) then
            ({ s with flight_mode := .MC_MODE }, s.mc_roll_weight)
          else (s, s.mc_roll_weight)
    else
      match s.flight_mode with
      | .MC_MODE =>
          ({ s with flight_mode := .TRANSITION_TO_FW,
                    transition_start := i.now }, s.mc_roll_weight)
      | .TRANSITION_TO_MC =>
          ({ s with flight_mode := .TRANSITION_TO_FW,
                    transition_start := i.now }, s.mc_roll_weight)
      | .FW_MODE =>
          ({ s with flight_mode := .FW_MODE }, 0)
      | .TRANSITION_TO_FW =>
          if frontTransitionDone p i t then
            ({ s with flight_mode := .FW_MODE,
                      trans_finished_ts := i.now }, s.mc_roll_weight)
          else (s, s.mc_roll_weight)
  { r.1 with mc_roll_weight := r.2,
             mc_pitch_weight := r.2,
             mc_yaw_weight := r.2,
             mc_throttle_weight := r.2,
             vtol_mode_pub := projectMode r.1.flight_mode }

/-- External facilities used by `update_transition_state` whose code is
not under `src/`: the quaternion-from-Euler construction of the matrix
library, the degree-to-radian factor of `math::radians` (irrational, so
abstracted), the result of the base-class call
`update_and_get_backtransition_pitch_sp()`, the slew-rate limiter
updates of the flaps and spoiler setpoints, and the surface updates done
by the base-class `VtolType::update_transition_state()`. -/
structure Ext where
  quatFromEuler : ℚ → ℚ → ℚ → Quat
  deg2rad : ℚ
  backtransitionPitch : ℚ
  flapsSlew : ℚ → ℚ → ℚ → ℚ
  spoilerSlew : ℚ → ℚ → ℚ → ℚ
  baseFlaps : ℚ → ℚ
  baseSpoiler : ℚ → ℚ

/-- Modelled from the spec: `VtolType::update_transition_state()` (base
class, not under `src/`) "handles slew-rate-limited surfaces shared
across VTOL types"; it updates only the flaps and spoiler slew states
and touches neither the schedule, the weights, the pusher state nor the
attitude setpoint. -/
def vtolTypeUpdateTransitionState (e : Ext) (s : State) : State :=
  { s with flaps_state := e.baseFlaps s.flaps_state,
           spoiler_state := e.baseSpoiler s.spoiler_state }

/-- Staleness of the MC virtual attitude setpoint (line 216):
`timestamp < now - 1_s`. -/
def mcSpStale (i : Inputs) : Bool :=
  decide (i.mc_virtual_att_sp.timestamp < i.now - 1000000)

/-- Staleness of the FW virtual attitude setpoint (lines 216, 225). -/
def fwSpStale (i : Inputs) : Bool :=
  decide (i.fw_virtual_att_sp.timestamp < i.now - 1000000)

/-- The freshness gate of `update_transition_state` (lines 214-231):
with climb-rate control both virtual setpoints must be fresh, otherwise
only the FW one. -/
def spFresh (i : Inputs) : Bool :=
  if i.flag_control_climb_rate_enabled then ! mcSpStale i && ! fwSpStale i
  else ! fwSpStale i

/-- The attitude setpoint synthesized on a fresh tick (lines 220-230):
with climb-rate control, the MC virtual setpoint with `roll_body`
overwritten from the FW one; otherwise the FW virtual setpoint with
`thrust_body[2] := -thrust_body[0]`. -/
def synthAttSp (i : Inputs) : AttSp :=
  if i.flag_control_climb_rate_enabled then
    { i.mc_virtual_att_sp with roll_body := i.fw_virtual_att_sp.roll_body }
  else
    { i.fw_virtual_att_sp with
      thrust_body2 := -(i.fw_virtual_att_sp.thrust_body0) }

/-- The front-transition pusher ramp (lines 234-241): snap to
`VT_F_TRANS_THR` when the ramp time is non-positive, otherwise ramp
while the previous value has not passed the target, otherwise keep. -/
def frontPusherThrottle (p : Params) (prev t : ℚ) : ℚ :=
  if p.vt_psher_rmp_dt ≤ 0 then p.vt_f_trans_thr
  else if prev ≤ p.vt_f_trans_thr then
    p.vt_f_trans_thr * t / p.vt_psher_rmp_dt
  else prev

/-- The front-transition MC weight (lines 243-260), before the final
clamp: airspeed blending when a blend margin exists, the airspeed is
finite and positive, at least `VT_ARSP_BLEND`, and the minimum
transition time has passed; otherwise time-based blending when the
airspeed sensor is untrusted or the value non-finite; otherwise the
initial 1. -/
def frontMcWeight (p : Params) (minT : ℚ) (as : Option ℚ) (t : ℚ) : ℚ :=
  let margin := p.vt_arsp_trans - p.vt_arsp_blend
  match as with
  | some a =>
      if margin > 0 ∧ a > 0 ∧ a ≥ p.vt_arsp_blend ∧ t > minT then
        1 - |a - p.vt_arsp_blend| / margin
      else if p.fw_arsp_mode ≠ 0 then
        constrain (2 * (1 - t / minT)) 0 1
      else 1
  | none => constrain (2 * (1 - t / minT)) 0 1

/-- The back-transition pusher throttle (lines 290-297): zero, then once
`time_since_trans_start ≥ VT_B_REV_DEL` the clamped ramp scale times
`VT_B_TRANS_THR`. -/
def backPusherThrottle (p : Params) (t : ℚ) : ℚ :=
  if t ≥ p.vt_b_rev_del then
    constrain ((t - p.vt_b_rev_del) / p.vt_psher_rmp_dt) 0 1
      * p.vt_b_trans_thr
  else 0

/-- The body of `update_transition_state` after the setpoint synthesis
(lines 233-310), including the final clamp and replication of the
weight. -/
def transitionRest (p : Params) (e : Ext) (i : Inputs) (t : ℚ) (s : State) :
    State :=
  let r : State × ℚ :=
    match s.flight_mode with
    | .TRANSITION_TO_FW =>
        let pusher := frontPusherThrottle p s.pusher_throttle t
        let margin := p.vt_arsp_trans - p.vt_arsp_blend
        let w := frontMcWeight p i.minFrontTransTime i.calibrated_airspeed t
        let pitch := e.deg2rad * p.fw_psp_off * (1 - w)
        let sp := { s.v_att_sp with
                    pitch_body := pitch,
                    q_d := e.quatFromEuler s.v_att_sp.roll_body pitch
                             s.v_att_sp.yaw_body }
        let quadchute :=
          if p.vt_trans_timeout > FLT_EPSILON then
            if t > p.vt_trans_timeout then true
            else s.quadchute_transition_timeout
          else s.quadchute_transition_timeout
        ({ s with pusher_throttle := pusher,
                  airspeed_trans_blend_margin := margin,
                  v_att_sp := sp,
                  quadchute_transition_timeout := quadchute,
                  flaps_state := e.flapsSlew s.flaps_state 0 i.dt,
                  spoiler_state := e.spoilerSlew s.spoiler_state 0 i.dt }, w)
    | .TRANSITION_TO_MC =>
        let sp0 :=
          if i.flag_control_climb_rate_enabled then
            { s.v_att_sp with pitch_body := e.backtransitionPitch }
          else s.v_att_sp
        let sp := { sp0 with
                    q_d := e.quatFromEuler sp0.roll_body sp0.pitch_body
                             sp0.yaw_body }
        let pusher := backPusherThrottle p t
        let w := if p.vt_b_trans_ramp > FLT_EPSILON then
                   t / p.vt_b_trans_ramp
                 else 1
        ({ s with v_att_sp := sp, pusher_throttle := pusher }, w)
    | .MC_MODE => (s, 1)
    | .FW_MODE => (s, 1)
  let w := constrain r.2 0 1
  { r.1 with mc_roll_weight := w,
             mc_pitch_weight := w,
             mc_yaw_weight := w,
             mc_throttle_weight := w }

/-- `Standard::update_transition_state` (lines 204-311): the base-class
update, then the freshness-gated setpoint synthesis (a stale tick
returns with everything after the base-class update skipped), then the
mode-specific ramps and the final weight clamp. -/
def update_transition_state (p : Params) (e : Ext) (i : Inputs) (s : State) :
    State :=
  let t : ℚ := usToS (i.now - s.transition_start)
  let s1 := vtolTypeUpdateTransitionState e s
  if spFresh i then
    transitionRest p e i t { s1 with v_att_sp := synthAttSp i }
  else s1

/-- Landing-gear command values of the `landing_gear` uORB message (not
under `src/`): down is `-1`, up is `1`. -/
def GEAR_DOWN : ℚ := -1

/-- Landing-gear up command value. -/
def GEAR_UP : ℚ := 1

/-- One control-input vector (`actuator_controls_s::control`, the four
channels `standard.cpp` reads). -/
structure CtrlIn where
  roll : ℚ
  pitch : ℚ
  yaw : ℚ
  throttle : ℚ
deriving DecidableEq, Repr

/-- The MC-group output channels written by `fill_actuator_outputs`. -/
structure McOut where
  roll : ℚ
  pitch : ℚ
  yaw : ℚ
  throttle : ℚ
  landing_gear : ℚ
deriving DecidableEq, Repr

/-- The FW-group output channels written by `fill_actuator_outputs`. -/
structure FwOut where
  roll : ℚ
  pitch : ℚ
  yaw : ℚ
  throttle : ℚ
  flaps : ℚ
  spoilers : ℚ
  airbrakes : ℚ
deriving DecidableEq, Repr

/-- `Standard::fill_actuator_outputs` (lines 329-399), as the pure
function of the mode, the two input vectors, the four weights, the
pusher throttle, the reverse output, the two slew states and
`VT_ELEV_MC_LOCK` that produces the two output vectors. -/
def fill_actuator_outputs (fm : vtol_mode) (mc_in fw_in : CtrlIn)
    (w_roll w_pitch w_yaw w_throttle pusher reverse flaps spoilers : ℚ)
    (elev_lock : Bool) : McOut × FwOut :=
  match fm with
  | .MC_MODE =>
      (⟨mc_in.roll, mc_in.pitch, mc_in.yaw, mc_in.throttle, GEAR_DOWN⟩,
       ⟨if elev_lock then 0 else fw_in.roll,
        if elev_lock then 0 else fw_in.pitch,
        0, pusher, flaps, spoilers, 0⟩)
  | .TRANSITION_TO_FW =>
      (⟨mc_in.roll * w_roll, mc_in.pitch * w_pitch, mc_in.yaw * w_yaw,
        mc_in.throttle * w_throttle, GEAR_UP⟩,
       ⟨fw_in.roll, fw_in.pitch, fw_in.yaw, pusher, flaps, spoilers,
        reverse⟩)
  | .TRANSITION_TO_MC =>
      (⟨mc_in.roll * w_roll, mc_in.pitch * w_pitch, mc_in.yaw * w_yaw,
        mc_in.throttle * w_throttle, GEAR_UP⟩,
       ⟨fw_in.roll, fw_in.pitch, fw_in.yaw, pusher, flaps, spoilers,
        reverse⟩)
  | .FW_MODE =>
      (⟨0, 0, 0, 0, GEAR_UP⟩,
       ⟨fw_in.roll, fw_in.pitch, fw_in.yaw, fw_in.throttle, flaps,
        spoilers, 0⟩)

/-- Division made explicitly partial: `none` exactly when the divisor is
zero. -/
def checkedDiv (a b : ℚ) : Option ℚ :=
  if b = 0 then none else some (a / b)

/-- The front-transition pusher ramp of lines 234-241 with the division
partiality explicit: the ramp expression divides by `VT_PSHER_RMP_DT`
only inside the branch that has established `VT_PSHER_RMP_DT > 0`. -/
def frontPusherThrottleChecked (p : Params) (prev t : ℚ) : Option ℚ :=
  if p.vt_psher_rmp_dt ≤ 0 then some p.vt_f_trans_thr
  else if prev ≤ p.vt_f_trans_thr then
    checkedDiv (p.vt_f_trans_thr * t) p.vt_psher_rmp_dt
  else some prev

/-- The back-transition pusher throttle of lines 290-297 with the
division partiality explicit: the `thrscale` expression divides by
`VT_PSHER_RMP_DT` with no guard. -/
def backPusherThrottleChecked (p : Params) (t : ℚ) : Option ℚ :=
  if t ≥ p.vt_b_rev_del then
    (checkedDiv (t - p.vt_b_rev_del) p.vt_psher_rmp_dt).map
      fun sc => constrain sc 0 1 * p.vt_b_trans_thr
  else some 0

/-! Concrete fixtures used by witnesses and counterexamples. -/

/-- A zeroed attitude setpoint record. -/
def spZero : AttSp := ⟨0, 0, 0, 0, 0, 0, 0, ⟨1, 0, 0, 0⟩⟩

/-- A zeroed attitude setpoint with a given timestamp. -/
def spAt (ts : ℕ) : AttSp := { spZero with timestamp := ts }

/-- The identity quaternion. -/
def qId : Quat := ⟨1, 0, 0, 0⟩

/-- Concrete external facilities: identity-like dummies. -/
def eW : Ext :=
  ⟨fun _ _ _ => qId, 0, 0, fun st _ _ => st, fun st _ _ => st, id, id⟩

/-- A concrete parameter set: `VT_F_TRANS_THR = 3/4`,
`VT_PSHER_RMP_DT = 2`, `VT_ARSP_TRANS = 20`, `VT_ARSP_BLEND = 10`,
`VT_TRANS_TIMEOUT = 0`, `VT_B_TRANS_DUR = 8`, `VT_B_TRANS_RAMP = 1`,
`VT_B_TRANS_THR = 2/5`, `VT_B_REV_DEL = 1/2`, `VT_B_REV_OUT = 1/2`,
`VT_ELEV_MC_LOCK = false`, `FW_ARSP_MODE = 0`, `FW_PSP_OFF = 5`,
`MPC_XY_CRUISE = 5`. -/
def pW : Params := ⟨3/4, 2, 20, 10, 0, 8, 1, 2/5, 1/2, 1/2, false, 0, 5, 5⟩

/-- A baseline state: hovering in `MC_MODE` with unit weights. -/
def sBase : State :=
  ⟨.MC_MODE, 0, 1, 1, 1, 1, 0, 0, 0, false, .ROTARY_WING, spZero, 0, 0, 0,
   false⟩

/-- A baseline input snapshot at `now = 0`. -/
def iBase : Inputs :=
  ⟨0, false, false, 3, false, 0, 0, 0, qId, none, false, spZero, spZero,
   1 / 250⟩

/-! Helper characterizations of the exit conditions. -/

/-- `frontTransitionDone` holds exactly on the ground condition, or past
the minimum time with the airspeed trigger satisfied or the airspeed
untrusted/non-finite. -/
theorem frontTransitionDone_iff (p : Params) (i : Inputs) (t : ℚ) :
    frontTransitionDone p i t = true ↔
      (i.can_transition_on_ground = true ∨
        (t > i.minFrontTransTime ∧
          ((∃ a, i.calibrated_airspeed = some a ∧ p.fw_arsp_mode = 0 ∧
              a ≥ p.vt_arsp_trans) ∨
            i.calibrated_airspeed = none ∨ p.fw_arsp_mode ≠ 0))) := by
  rcases has : i.calibrated_airspeed with _ | a <;>
    by_cases hmode : p.fw_arsp_mode = 0 <;>
    by_cases ht : t > i.minFrontTransTime <;>
    simp [frontTransitionDone, has, hmode, ht] <;> tauto

/-- `backSpeedExit` holds exactly on a valid slow body-X velocity, or,
lacking local velocity, a finite slow calibrated airspeed. -/
theorem backSpeedExit_iff (p : Params) (i : Inputs) :
    backSpeedExit p i = true ↔
      ((i.v_xy_valid = true ∧
          bodyVelX i.att_q i.vx i.vy i.vz < p.mpc_xy_cruise) ∨
        (i.v_xy_valid = false ∧
          ∃ a, i.calibrated_airspeed = some a ∧ a < p.mpc_xy_cruise)) := by
  rcases has : i.calibrated_airspeed with _ | a <;>
    cases hv : i.v_xy_valid <;>
    simp [backSpeedExit, has, hv]

/-! The claims. -/

/-- Claim C1: whenever the input flag `vtol_transition_failsafe` is set,
`update_vtol_state` forces `flight_mode := MC_MODE`, zeroes
`pusher_throttle` and `reverse_output`, regardless of the current mode
and of all other inputs, and on the same tick the failsafe flag ends up
cleared exactly when `is_fixed_wing_requested` is false. -/
theorem c1_failsafe_override (p : Params) (i : Inputs) (s : State)
    (h : s.vtol_transition_failsafe = true) :
    (update_vtol_state p i s).flight_mode = .MC_MODE ∧
    (update_vtol_state p i s).pusher_throttle = 0 ∧
    (update_vtol_state p i s).reverse_output = 0 ∧
    ((update_vtol_state p i s).vtol_transition_failsafe = false ↔
      i.is_fixed_wing_requested = false) := by
  cases hr : i.is_fixed_wing_requested <;>
    simp [update_vtol_state, projectMode, h, hr]

/-- Witness for C1 at a concrete failsafe tick. -/
theorem c1_failsafe_override_witness :
    (update_vtol_state pW iBase
        { sBase with flight_mode := .TRANSITION_TO_FW,
                     vtol_transition_failsafe := true }).flight_mode =
      .MC_MODE ∧
    (update_vtol_state pW iBase
        { sBase with flight_mode := .TRANSITION_TO_FW,
                     vtol_transition_failsafe := true }).pusher_throttle =
      0 ∧
    (update_vtol_state pW iBase
        { sBase with flight_mode := .TRANSITION_TO_FW,
                     vtol_transition_failsafe := true }).reverse_output =
      0 ∧
    ((update_vtol_state pW iBase
          { sBase with flight_mode := .TRANSITION_TO_FW,
                       vtol_transition_failsafe := true
          }).vtol_transition_failsafe =
        false ↔
      iBase.is_fixed_wing_requested = false) :=
  c1_failsafe_override pW iBase
    { sBase with flight_mode := .TRANSITION_TO_FW,
                 vtol_transition_failsafe := true } rfl

/-- The actuator mixer written out as the spec's mode-indexed table
(§4.3 of the spec): each row gives the MC-group and FW-group channel
values for one mode. -/
def fillActuatorOutputsSpecTable (fm : vtol_mode) (mc_in fw_in : CtrlIn)
    (w_roll w_pitch w_yaw w_throttle pusher reverse flaps spoilers : ℚ)
    (elev_lock : Bool) : McOut × FwOut :=
  match fm with
  | .MC_MODE =>
      (⟨mc_in.roll, mc_in.pitch, mc_in.yaw, mc_in.throttle, GEAR_DOWN⟩,
       ⟨if elev_lock then 0 else fw_in.roll,
        if elev_lock then 0 else fw_in.pitch, 0, pusher, flaps, spoilers,
        0⟩)
  | .TRANSITION_TO_FW =>
      (⟨mc_in.roll * w_roll, mc_in.pitch * w_pitch, mc_in.yaw * w_yaw,
        mc_in.throttle * w_throttle, GEAR_UP⟩,
       ⟨fw_in.roll, fw_in.pitch, fw_in.yaw, pusher, flaps, spoilers,
        reverse⟩)
  | .TRANSITION_TO_MC =>
      (⟨mc_in.roll * w_roll, mc_in.pitch * w_pitch, mc_in.yaw * w_yaw,
        mc_in.throttle * w_throttle, GEAR_UP⟩,
       ⟨fw_in.roll, fw_in.pitch, fw_in.yaw, pusher, flaps, spoilers,
        reverse⟩)
  | .FW_MODE =>
      (⟨0, 0, 0, 0, GEAR_UP⟩,
       ⟨fw_in.roll, fw_in.pitch, fw_in.yaw, fw_in.throttle, flaps,
        spoilers, 0⟩)

/-- Claim C2: `fill_actuator_outputs` is a pure function of the mode,
the two input vectors, the four weights, the pusher throttle, the
reverse output, the slew states and `VT_ELEV_MC_LOCK` (it takes exactly
those arguments), and it coincides with the spec's mode-indexed table on
every input, in every mode. -/
theorem c2_fill_actuator_outputs_table (fm : vtol_mode)
    (mc_in fw_in : CtrlIn)
    (w_roll w_pitch w_yaw w_throttle pusher reverse flaps spoilers : ℚ)
    (elev_lock : Bool) :
    fill_actuator_outputs fm mc_in fw_in w_roll w_pitch w_yaw w_throttle
        pusher reverse flaps spoilers elev_lock =
      fillActuatorOutputsSpecTable fm mc_in fw_in w_roll w_pitch w_yaw
        w_throttle pusher reverse flaps spoilers elev_lock := by
  cases fm <;> rfl

/-- Claim C3: in `TRANSITION_TO_FW` with fixed wing requested and no
failsafe, `update_vtol_state` completes the transition — switching to
`FW_MODE` and recording `trans_finished_ts := now` — exactly when
`can_transition_on_ground()` holds, or the minimum front-transition time
has elapsed and either a trusted finite airspeed has reached
`VT_ARSP_TRANS` or the airspeed is non-finite or untrusted; it never
touches `pusher_throttle`, and otherwise stays in `TRANSITION_TO_FW`. -/
theorem c3_front_transition_completion (p : Params) (i : Inputs)
    (s : State) (hm : s.flight_mode = .TRANSITION_TO_FW)
    (hreq : i.is_fixed_wing_requested = true)
    (hfs : s.vtol_transition_failsafe = false) :
    ((update_vtol_state p i s).flight_mode = .FW_MODE ↔
      (i.can_transition_on_ground = true ∨
        (usToS (i.now - s.transition_start) > i.minFrontTransTime ∧
          ((∃ a, i.calibrated_airspeed = some a ∧ p.fw_arsp_mode = 0 ∧
              a ≥ p.vt_arsp_trans) ∨
            i.calibrated_airspeed = none ∨ p.fw_arsp_mode ≠ 0)))) ∧
    (update_vtol_state p i s).pusher_throttle = s.pusher_throttle ∧
    ((update_vtol_state p i s).flight_mode = .FW_MODE →
      (update_vtol_state p i s).trans_finished_ts = i.now) ∧
    ((update_vtol_state p i s).flight_mode ≠ .FW_MODE →
      (update_vtol_state p i s).flight_mode = .TRANSITION_TO_FW ∧
      (update_vtol_state p i s).trans_finished_ts = s.trans_finished_ts) := by
  have hiff := frontTransitionDone_iff p i (usToS (i.now - s.transition_start))
  by_cases hdone :
      frontTransitionDone p i (usToS (i.now - s.transition_start)) = true
  · simp [update_vtol_state, projectMode, hm, hreq, hfs, hdone] at hiff ⊢
    tauto
  · simp [update_vtol_state, projectMode, hm, hreq, hfs, hdone] at hiff ⊢
    tauto

/-- Witness for C3: a concrete tick completing on the ground
condition. -/
theorem c3_front_transition_completion_witness :
    (update_vtol_state pW
        { iBase with is_fixed_wing_requested := true,
                     can_transition_on_ground := true, now := 5000 }
        { sBase with flight_mode := .TRANSITION_TO_FW }).flight_mode =
      .FW_MODE :=
  ((c3_front_transition_completion pW
        { iBase with is_fixed_wing_requested := true,
                     can_transition_on_ground := true, now := 5000 }
        { sBase with flight_mode := .TRANSITION_TO_FW } rfl rfl rfl).1).mpr
    (Or.inl rfl)

/-- Claim C4: in `TRANSITION_TO_MC` with fixed wing not requested and no
failsafe, `update_vtol_state` switches to `MC_MODE` exactly when the
ground condition holds, or the speed condition holds (body-X velocity
from the inverse-attitude rotation below `MPC_XY_CRUISE` when local XY
velocity is valid, else finite calibrated airspeed below
`MPC_XY_CRUISE`, else never), or more than `VT_B_TRANS_DUR` seconds have
passed since the transition started; otherwise it stays in
`TRANSITION_TO_MC`. -/
theorem c4_back_transition_exit (p : Params) (i : Inputs) (s : State)
    (hm : s.flight_mode = .TRANSITION_TO_MC)
    (hreq : i.is_fixed_wing_requested = false)
    (hfs : s.vtol_transition_failsafe = false) :
    ((update_vtol_state p i s).flight_mode = .MC_MODE ↔
      (i.can_transition_on_ground = true ∨
        ((i.v_xy_valid = true ∧
            bodyVelX i.att_q i.vx i.vy i.vz < p.mpc_xy_cruise) ∨
          (i.v_xy_valid = false ∧
            ∃ a, i.calibrated_airspeed = some a ∧ a < p.mpc_xy_cruise)) ∨
        usToS (i.now - s.transition_start) > p.vt_b_trans_dur)) ∧
    ((update_vtol_state p i s).flight_mode ≠ .MC_MODE →
      (update_vtol_state p i s).flight_mode = .TRANSITION_TO_MC) := by
  have hiff := backSpeedExit_iff p i
  by_cases hspeed : backSpeedExit p i = true <;>
    by_cases hgnd : i.can_transition_on_ground = true <;>
    by_cases ht : usToS (i.now - s.transition_start) > p.vt_b_trans_dur <;>
    simp [update_vtol_state, projectMode, hm, hreq, hfs, hspeed, hgnd,
      ht] at hiff ⊢ <;>
    tauto

/-- Witness for C4: a concrete back-transition tick exiting on a valid
slow body-X velocity under the identity attitude. -/
theorem c4_back_transition_exit_witness :
    (update_vtol_state pW
        { iBase with v_xy_valid := true, vx := 2, vy := 0, vz := 0,
                     now := 5000 }
        { sBase with flight_mode := .TRANSITION_TO_MC }).flight_mode =
      .MC_MODE :=
  ((c4_back_transition_exit pW
        { iBase with v_xy_valid := true, vx := 2, vy := 0, vz := 0,
                     now := 5000 }
        { sBase with flight_mode := .TRANSITION_TO_MC } rfl rfl rfl).1).mpr
    (Or.inr (Or.inl (Or.inl ⟨rfl, by
      norm_num [bodyVelX, quatRotate, quatInv, quatMul, quatNormSq, iBase,
        qId, pW]⟩)))

/-- Parameters for the C5 analysis: a negative blend airspeed with a
positive blend margin. -/
def pC5x : Params := { pW with vt_arsp_trans := 2, vt_arsp_blend := -2 }

/-- Inputs for the C5 analysis: a fresh front-transition tick at
`t = 4 s` with a finite non-positive calibrated airspeed. -/
def iC5x : Inputs :=
  { iBase with now := 4000000, calibrated_airspeed := some (-1),
               fw_virtual_att_sp := spAt 4000000 }

/-- State for the C5 analysis: front transition started at time 0. -/
def sC5x : State := { sBase with flight_mode := .TRANSITION_TO_FW }

/-- Counterexample to claim C5 as stated: at this tick the blend margin
is positive, the calibrated airspeed is finite and at least
`VT_ARSP_BLEND`, and the minimum transition time has passed, yet the mc
weight is set to 1 and not to
`1 − |airspeed − VT_ARSP_BLEND| / (VT_ARSP_TRANS − VT_ARSP_BLEND)`
(which is `3/4` here): the code additionally requires
`calibrated_airspeed > 0`, which fails. -/
theorem c5_counterexample :
    pC5x.vt_arsp_trans - pC5x.vt_arsp_blend > 0 ∧
    iC5x.calibrated_airspeed = some (-1) ∧
    ((-1 : ℚ) ≥ pC5x.vt_arsp_blend) ∧
    usToS (iC5x.now - sC5x.transition_start) > iC5x.minFrontTransTime ∧
    spFresh iC5x = true ∧
    sC5x.flight_mode = .TRANSITION_TO_FW ∧
    frontMcWeight pC5x iC5x.minFrontTransTime iC5x.calibrated_airspeed
        (usToS (iC5x.now - sC5x.transition_start)) = 1 ∧
    (update_transition_state pC5x eW iC5x sC5x).mc_roll_weight = 1 ∧
    (1 : ℚ) ≠ 1 - |(-1 : ℚ) - pC5x.vt_arsp_blend| /
        (pC5x.vt_arsp_trans - pC5x.vt_arsp_blend) := by
  refine ⟨by norm_num [pC5x, pW], rfl, by norm_num [pC5x, pW],
    by norm_num [usToS, iC5x, sC5x, iBase, sBase],
    by norm_num [spFresh, fwSpStale, mcSpStale, iC5x, iBase, spAt, spZero],
    rfl, ?_, ?_, by norm_num [pC5x, pW]⟩
  · norm_num [frontMcWeight, usToS, iC5x, sC5x, iBase, sBase, pC5x, pW]
  · norm_num [update_transition_state, transitionRest,
      vtolTypeUpdateTransitionState, spFresh, fwSpStale, mcSpStale,
      synthAttSp, frontMcWeight, frontPusherThrottle, constrain, usToS,
      iC5x, sC5x, iBase, sBase, pC5x, pW, eW, spAt, spZero]

/-- Claim C5 as amended: the blending branch additionally requires
`calibrated_airspeed > 0`; with that extra conjunct the three-way
schedule holds: blending weight
`1 − |airspeed − VT_ARSP_BLEND| / blend_margin` when the margin is
positive, the airspeed finite, positive, at least `VT_ARSP_BLEND` and
the minimum time elapsed; else the clamped time-based weight when the
sensor is untrusted or the value non-finite; else 1 — and on a fresh
`TRANSITION_TO_FW` tick the stored weight is this value clamped to
`[0, 1]`. -/
theorem c5_amended (p : Params) (e : Ext) (i : Inputs) (s : State)
    (hm : s.flight_mode = .TRANSITION_TO_FW)
    (hfresh : spFresh i = true) :
    ((update_transition_state p e i s).mc_roll_weight =
      constrain (frontMcWeight p i.minFrontTransTime i.calibrated_airspeed
          (usToS (i.now - s.transition_start))) 0 1) ∧
    (∀ (q : Params) (minT a t : ℚ),
      q.vt_arsp_trans - q.vt_arsp_blend > 0 → a > 0 →
      a ≥ q.vt_arsp_blend → t > minT →
      frontMcWeight q minT (some a) t =
        1 - |a - q.vt_arsp_blend| /
          (q.vt_arsp_trans - q.vt_arsp_blend)) ∧
    (∀ (q : Params) (minT t : ℚ) (as : Option ℚ),
      (q.fw_arsp_mode ≠ 0 ∨ as = none) →
      ¬(q.vt_arsp_trans - q.vt_arsp_blend > 0 ∧
        (∃ a, as = some a ∧ a > 0 ∧ a ≥ q.vt_arsp_blend) ∧ t > minT) →
      frontMcWeight q minT as t = constrain (2 * (1 - t / minT)) 0 1) ∧
    (∀ (q : Params) (minT a t : ℚ), q.fw_arsp_mode = 0 →
      ¬(q.vt_arsp_trans - q.vt_arsp_blend > 0 ∧ a > 0 ∧
        a ≥ q.vt_arsp_blend ∧ t > minT) →
      frontMcWeight q minT (some a) t = 1) := by
  refine ⟨?_, ?_, ?_, ?_⟩
  · simp [update_transition_state, hfresh, vtolTypeUpdateTransitionState,
      transitionRest, hm]
  · intro q minT a t h1 h2 h3 h4
    simp only [frontMcWeight]
    rw [if_pos ⟨h1, h2, h3, h4⟩]
  · intro q minT t as h1 h2
    rcases as with _ | a
    · simp [frontMcWeight]
    · have hno : ¬(q.vt_arsp_trans - q.vt_arsp_blend > 0 ∧ a > 0 ∧
          a ≥ q.vt_arsp_blend ∧ t > minT) := by
        rintro ⟨k1, k2, k3, k4⟩
        exact h2 ⟨k1, ⟨a, rfl, k2, k3⟩, k4⟩
      have hmode : q.fw_arsp_mode ≠ 0 := by
        rcases h1 with h | h
        · exact h
        · cases h
      simp only [frontMcWeight]
      rw [if_neg hno, if_pos hmode]
  · intro q minT a t h1 h2
    simp only [frontMcWeight]
    rw [if_neg h2, if_neg (by simp [h1])]

/-- Witness for C5 as amended, at the counterexample's fresh tick. -/
theorem c5_amended_witness :
    (update_transition_state pC5x eW iC5x sC5x).mc_roll_weight =
      constrain
        (frontMcWeight pC5x iC5x.minFrontTransTime iC5x.calibrated_airspeed
          (usToS (iC5x.now - sC5x.transition_start))) 0 1 :=
  (c5_amended pC5x eW iC5x sC5x rfl
      (by norm_num [spFresh, fwSpStale, mcSpStale, iC5x, iBase, spAt,
        spZero])).1

/-- Inputs for the C6 analysis: a front-transition tick at `t = 2 s`
whose FW virtual setpoint is 2 s old (stale), with climb-rate control
disabled. -/
def iC6x : Inputs := { iBase with now := 2000000 }

/-- State for the C6 analysis: front transition started at time 0 with
zero pusher throttle. -/
def sC6x : State := { sBase with flight_mode := .TRANSITION_TO_FW }

/-- Counterexample to claim C6 as stated: on this stale transition tick
the attitude setpoint is indeed left unchanged, but the pusher-throttle
schedule does NOT update — the early return skips it — although the
front ramp would have produced `3/4` instead of the kept `0`; the
weights are equally left unchanged. -/
theorem c6_counterexample :
    sC6x.flight_mode = .TRANSITION_TO_FW ∧
    fwSpStale iC6x = true ∧
    iC6x.flag_control_climb_rate_enabled = false ∧
    (update_transition_state pW eW iC6x sC6x).v_att_sp = sC6x.v_att_sp ∧
    (update_transition_state pW eW iC6x sC6x).pusher_throttle =
      sC6x.pusher_throttle ∧
    (update_transition_state pW eW iC6x sC6x).mc_roll_weight =
      sC6x.mc_roll_weight ∧
    frontPusherThrottle pW sC6x.pusher_throttle
        (usToS (iC6x.now - sC6x.transition_start)) = 3 / 4 ∧
    sC6x.pusher_throttle ≠ 3 / 4 := by
  refine ⟨rfl, by norm_num [fwSpStale, iC6x, iBase, spZero], rfl, ?_, ?_,
    ?_, ?_, by norm_num [sC6x, sBase]⟩ <;>
    norm_num [update_transition_state, vtolTypeUpdateTransitionState,
      spFresh, fwSpStale, mcSpStale, frontPusherThrottle, usToS, iC6x,
      sC6x, iBase, sBase, pW, eW, spZero]

/-- Claim C6 as amended: on a tick whose required virtual attitude
setpoints are stale, `update_transition_state` returns right after the
base-class surface update: the attitude setpoint is left unchanged, and
— contrary to the claim as stated — the mc-weight schedule and the
pusher-throttle schedule are also skipped on that tick, all weights and
the pusher throttle keeping their previous values. -/
theorem c6_amended (p : Params) (e : Ext) (i : Inputs) (s : State)
    (hstale : spFresh i = false) :
    update_transition_state p e i s = vtolTypeUpdateTransitionState e s ∧
    (update_transition_state p e i s).v_att_sp = s.v_att_sp ∧
    (update_transition_state p e i s).pusher_throttle =
      s.pusher_throttle ∧
    (update_transition_state p e i s).mc_roll_weight =
      s.mc_roll_weight ∧
    (update_transition_state p e i s).mc_pitch_weight =
      s.mc_pitch_weight ∧
    (update_transition_state p e i s).mc_yaw_weight = s.mc_yaw_weight ∧
    (update_transition_state p e i s).mc_throttle_weight =
      s.mc_throttle_weight := by
  simp [update_transition_state, hstale, vtolTypeUpdateTransitionState]

/-- Witness for C6 as amended at the concrete stale tick. -/
theorem c6_amended_witness :
    (update_transition_state pW eW iC6x sC6x).pusher_throttle =
      sC6x.pusher_throttle :=
  (c6_amended pW eW iC6x sC6x
      (by norm_num [spFresh, fwSpStale, mcSpStale, iC6x, iBase,
        spZero])).2.2.1

/-- Inputs for the C7 analysis: fixed wing requested, on-ground
completion available. -/
def iC7x : Inputs :=
  { iBase with is_fixed_wing_requested := true,
               can_transition_on_ground := true, now := 5000 }

/-- State for the C7 analysis: mid front transition with all weights at
`1/2`. -/
def sC7x : State :=
  { sBase with flight_mode := .TRANSITION_TO_FW, mc_roll_weight := 1 / 2,
               mc_pitch_weight := 1 / 2, mc_yaw_weight := 1 / 2,
               mc_throttle_weight := 1 / 2 }

/-- Counterexample to claim C7 as stated: on the very tick where front
transition completion sets `FW_MODE`, the weight fields keep the
previous tick's value (`1/2` here), not 0 — the completion branch never
clears the local `mc_weight`. -/
theorem c7_counterexample :
    (update_vtol_state pW iC7x sC7x).flight_mode = .FW_MODE ∧
    (update_vtol_state pW iC7x sC7x).mc_roll_weight = 1 / 2 ∧
    (update_vtol_state pW iC7x sC7x).mc_throttle_weight = 1 / 2 ∧
    (1 : ℚ) / 2 ≠ 0 := by
  norm_num [update_vtol_state, frontTransitionDone, projectMode, usToS,
    iC7x, sC7x, iBase, sBase, pW]

/-- Claim C7 as amended: on every tick that was already in `FW_MODE`
(fixed wing requested, no failsafe) the four weight fields are zeroed by
`update_vtol_state` and the mode stays `FW_MODE`; and in `FW_MODE` the
mixer emits 0 on the MC group's roll, pitch, yaw and throttle channels
for every input and any weights.  On the completion tick itself the
weights keep their previous value, so the mixer conjunct is what
guarantees zero MC output there. -/
theorem c7_amended (p : Params) (i : Inputs) (s : State)
    (hm : s.flight_mode = .FW_MODE)
    (hreq : i.is_fixed_wing_requested = true)
    (hfs : s.vtol_transition_failsafe = false) :
    (update_vtol_state p i s).flight_mode = .FW_MODE ∧
    (update_vtol_state p i s).mc_roll_weight = 0 ∧
    (update_vtol_state p i s).mc_pitch_weight = 0 ∧
    (update_vtol_state p i s).mc_yaw_weight = 0 ∧
    (update_vtol_state p i s).mc_throttle_weight = 0 ∧
    (∀ (mc_in fw_in : CtrlIn)
      (w_roll w_pitch w_yaw w_throttle pusher reverse flaps spoilers : ℚ)
      (elev_lock : Bool),
      (fill_actuator_outputs .FW_MODE mc_in fw_in w_roll w_pitch w_yaw
          w_throttle pusher reverse flaps spoilers elev_lock).1.roll = 0 ∧
      (fill_actuator_outputs .FW_MODE mc_in fw_in w_roll w_pitch w_yaw
          w_throttle pusher reverse flaps spoilers
          elev_lock).1.pitch = 0 ∧
      (fill_actuator_outputs .FW_MODE mc_in fw_in w_roll w_pitch w_yaw
          w_throttle pusher reverse flaps spoilers elev_lock).1.yaw = 0 ∧
      (fill_actuator_outputs .FW_MODE mc_in fw_in w_roll w_pitch w_yaw
          w_throttle pusher reverse flaps spoilers
          elev_lock).1.throttle = 0) := by
  refine ⟨?_, ?_, ?_, ?_, ?_, fun _ _ _ _ _ _ _ _ _ _ _ =>
    ⟨rfl, rfl, rfl, rfl⟩⟩ <;>
    simp [update_vtol_state, projectMode, hm, hreq, hfs]

/-- Witness for C7 as amended: a concrete steady `FW_MODE` tick. -/
theorem c7_amended_witness :
    (update_vtol_state pW
        { iBase with is_fixed_wing_requested := true }
        { sBase with flight_mode := .FW_MODE }).mc_roll_weight = 0 ∧
    (fill_actuator_outputs .FW_MODE ⟨1, 1, 1, 1⟩ ⟨1, 1, 1, 1⟩ 1 1 1 1 1 1
        1 1 false).1.throttle = 0 :=
  ⟨(c7_amended pW { iBase with is_fixed_wing_requested := true }
      { sBase with flight_mode := .FW_MODE } rfl rfl rfl).2.1,
   ((c7_amended pW { iBase with is_fixed_wing_requested := true }
      { sBase with flight_mode := .FW_MODE } rfl rfl rfl).2.2.2.2.2
      ⟨1, 1, 1, 1⟩ ⟨1, 1, 1, 1⟩ 1 1 1 1 1 1 1 1 false).2.2.2⟩

/-- `constrain x 0 1` always lands in `[0, 1]`. -/
theorem constrain01_mem (x : ℚ) :
    0 ≤ constrain x 0 1 ∧ constrain x 0 1 ≤ 1 := by
  unfold constrain
  split_ifs <;> constructor <;> linarith

/-- `update_vtol_state` only ever keeps or zeroes the pusher
throttle. -/
theorem update_vtol_state_pusher_mem (p : Params) (i : Inputs)
    (s : State) :
    (update_vtol_state p i s).pusher_throttle = s.pusher_throttle ∨
    (update_vtol_state p i s).pusher_throttle = 0 := by
  unfold update_vtol_state
  cases hfs : s.vtol_transition_failsafe <;>
    cases hrq : i.is_fixed_wing_requested <;>
    cases hm : s.flight_mode <;>
    simp [hfs, hrq, hm] <;> split_ifs <;> simp

/-- `update_vtol_state` only ever keeps, zeroes, or sets the reverse
output to `VT_B_REV_OUT`. -/
theorem update_vtol_state_reverse_mem (p : Params) (i : Inputs)
    (s : State) :
    (update_vtol_state p i s).reverse_output = s.reverse_output ∨
    (update_vtol_state p i s).reverse_output = 0 ∨
    (update_vtol_state p i s).reverse_output = p.vt_b_rev_out := by
  unfold update_vtol_state
  cases hfs : s.vtol_transition_failsafe <;>
    cases hrq : i.is_fixed_wing_requested <;>
    cases hm : s.flight_mode <;>
    simp [hfs, hrq, hm] <;> split_ifs <;> simp

/-- `update_transition_state` never writes the reverse output. -/
theorem update_transition_state_reverse (p : Params) (e : Ext)
    (i : Inputs) (s : State) :
    (update_transition_state p e i s).reverse_output =
      s.reverse_output := by
  unfold update_transition_state transitionRest
  cases hf : spFresh i <;> cases hm : s.flight_mode <;>
    simp [hf, hm, vtolTypeUpdateTransitionState]

/-- Elapsed transition time is never negative. -/
theorem usToS_nonneg (d : ℕ) : 0 ≤ usToS d := by
  unfold usToS
  positivity

/-- On a fresh transition tick the pusher throttle is exactly the
branch's ramp value. -/
theorem update_transition_state_pusher_fresh (p : Params) (e : Ext)
    (i : Inputs) (s : State) (hf : spFresh i = true) :
    ((s.flight_mode = .TRANSITION_TO_FW →
      (update_transition_state p e i s).pusher_throttle =
        frontPusherThrottle p s.pusher_throttle
          (usToS (i.now - s.transition_start))) ∧
     (s.flight_mode = .TRANSITION_TO_MC →
      (update_transition_state p e i s).pusher_throttle =
        backPusherThrottle p (usToS (i.now - s.transition_start))) ∧
     (s.flight_mode = .MC_MODE ∨ s.flight_mode = .FW_MODE →
      (update_transition_state p e i s).pusher_throttle =
        s.pusher_throttle)) := by
  unfold update_transition_state transitionRest
  cases hm : s.flight_mode <;>
    simp [hf, hm, vtolTypeUpdateTransitionState]

/-- On a stale transition tick the pusher throttle is kept. -/
theorem update_transition_state_pusher_stale (p : Params) (e : Ext)
    (i : Inputs) (s : State) (hf : spFresh i = false) :
    (update_transition_state p e i s).pusher_throttle =
      s.pusher_throttle := by
  unfold update_transition_state
  simp [hf, vtolTypeUpdateTransitionState]

/-- Inputs for the C8 trace, tick at `t = 2 s`: fixed wing requested,
both virtual setpoints 2 s old (stale). -/
def iC8a : Inputs :=
  { iBase with now := 2000000, is_fixed_wing_requested := true,
               minFrontTransTime := 100 }

/-- Inputs for the C8 trace, tick at `t = 6 s`: fixed wing requested,
the FW virtual setpoint fresh again. -/
def iC8b : Inputs :=
  { iBase with now := 6000000, is_fixed_wing_requested := true,
               minFrontTransTime := 100,
               fw_virtual_att_sp := spAt 6000000 }

/-- State for the C8 trace: front transition started at time 0, pusher
throttle 0. -/
def sC8 : State := { sBase with flight_mode := .TRANSITION_TO_FW }

/-- The state after the C8 trace's stale tick. -/
def sC8' : State :=
  update_transition_state pW eW iC8a (update_vtol_state pW iC8a sC8)

/-- Counterexample to claim C8 as stated: a two-tick run (all parameters
in their documented `[0, 1]` ranges, pusher throttle starting at 0 and
still 0 after the stale tick at `t = 2 s`) on whose fresh tick at
`t = 6 s` the front ramp computes
`VT_F_TRANS_THR · t / VT_PSHER_RMP_DT = (3/4) · 6 / 2 = 9/4 > 1`:
the ramp is not clamped, so skipped ramp updates break
`pusher_throttle ∈ [0, 1]`. -/
theorem c8_counterexample :
    (0 ≤ pW.vt_f_trans_thr ∧ pW.vt_f_trans_thr ≤ 1) ∧
    (0 ≤ pW.vt_b_trans_thr ∧ pW.vt_b_trans_thr ≤ 1) ∧
    (0 ≤ pW.vt_b_rev_out ∧ pW.vt_b_rev_out ≤ 1) ∧
    sC8.pusher_throttle = 0 ∧
    sC8'.pusher_throttle = 0 ∧
    sC8'.flight_mode = .TRANSITION_TO_FW ∧
    (update_transition_state pW eW iC8b
        (update_vtol_state pW iC8b sC8')).pusher_throttle = 9 / 4 ∧
    ¬((9 : ℚ) / 4 ≤ 1) := by
  refine ⟨by norm_num [pW], by norm_num [pW], by norm_num [pW], rfl,
    ?_, ?_, ?_, by norm_num⟩ <;>
    norm_num [sC8', update_vtol_state, update_transition_state,
      transitionRest, vtolTypeUpdateTransitionState, spFresh, fwSpStale,
      mcSpStale, synthAttSp, frontTransitionDone, frontPusherThrottle,
      frontMcWeight, constrain, projectMode, usToS, iC8a, iC8b, sC8,
      iBase, sBase, pW, eW, spAt, spZero, FLT_EPSILON]

/-- Claim C8 as amended: with `VT_F_TRANS_THR`, `VT_B_TRANS_THR` and
`VT_B_REV_OUT` in `[0, 1]` and the pusher state entering the tick in
`[0, 1]`, the mode scheduler keeps both pusher-state fields in `[0, 1]`,
the transition controller never touches the reverse output, and it keeps
the pusher throttle in `[0, 1]` during back transition; during front
transition it keeps it in `[0, 1]` only as long as the elapsed time has
not passed `VT_PSHER_RMP_DT` — after skipped ramp ticks the unclamped
ramp can exceed 1, as the counterexample shows. -/
theorem c8_amended (p : Params) (e : Ext) (i : Inputs) (s : State)
    (hft : 0 ≤ p.vt_f_trans_thr ∧ p.vt_f_trans_thr ≤ 1)
    (hbt : 0 ≤ p.vt_b_trans_thr ∧ p.vt_b_trans_thr ≤ 1)
    (hro : 0 ≤ p.vt_b_rev_out ∧ p.vt_b_rev_out ≤ 1)
    (hpu : 0 ≤ s.pusher_throttle ∧ s.pusher_throttle ≤ 1)
    (hre : 0 ≤ s.reverse_output ∧ s.reverse_output ≤ 1) :
    (0 ≤ (update_vtol_state p i s).pusher_throttle ∧
      (update_vtol_state p i s).pusher_throttle ≤ 1) ∧
    (0 ≤ (update_vtol_state p i s).reverse_output ∧
      (update_vtol_state p i s).reverse_output ≤ 1) ∧
    (update_transition_state p e i s).reverse_output =
      s.reverse_output ∧
    (0 ≤ (update_transition_state p e i
        { s with flight_mode := .TRANSITION_TO_MC }).pusher_throttle ∧
      (update_transition_state p e i
        { s with flight_mode := .TRANSITION_TO_MC }).pusher_throttle ≤
        1) ∧
    (usToS (i.now - s.transition_start) ≤ p.vt_psher_rmp_dt →
      0 ≤ (update_transition_state p e i
        { s with flight_mode := .TRANSITION_TO_FW }).pusher_throttle ∧
      (update_transition_state p e i
        { s with flight_mode := .TRANSITION_TO_FW }).pusher_throttle ≤
        1) := by
  have ht0 : 0 ≤ usToS (i.now - s.transition_start) := usToS_nonneg _
  refine ⟨?_, ?_, update_transition_state_reverse p e i s, ?_, ?_⟩
  · rcases update_vtol_state_pusher_mem p i s with h | h <;> rw [h]
    · exact hpu
    · norm_num
  · rcases update_vtol_state_reverse_mem p i s with h | h | h <;> rw [h]
    · exact hre
    · norm_num
    · exact hro
  · cases hf : spFresh i
    · rw [update_transition_state_pusher_stale p e i
        { s with flight_mode := .TRANSITION_TO_MC } hf]
      exact hpu
    · rw [(update_transition_state_pusher_fresh p e i
        { s with flight_mode := .TRANSITION_TO_MC } hf).2.1 rfl]
      unfold backPusherThrottle
      split_ifs
      · have hc := constrain01_mem
          ((usToS (i.now - s.transition_start) - p.vt_b_rev_del) /
            p.vt_psher_rmp_dt)
        constructor
        · exact mul_nonneg hc.1 hbt.1
        · nlinarith [hc.1, hc.2, hbt.1, hbt.2]
      · norm_num
  · intro htr
    cases hf : spFresh i
    · rw [update_transition_state_pusher_stale p e i
        { s with flight_mode := .TRANSITION_TO_FW } hf]
      exact hpu
    · rw [(update_transition_state_pusher_fresh p e i
        { s with flight_mode := .TRANSITION_TO_FW } hf).1 rfl]
      unfold frontPusherThrottle
      split_ifs with h1 h2
      · exact hft
      · have hrmp : 0 < p.vt_psher_rmp_dt := lt_of_not_le h1
        constructor
        · exact div_nonneg (mul_nonneg hft.1 ht0) (le_of_lt hrmp)
        · rw [div_le_one hrmp]
          nlinarith [hft.1, hft.2, ht0, htr]
      · exact hpu

/-- Inputs for the C8 witness: a fresh tick at `t = 1 s ≤ ramp time`. -/
def iC8w : Inputs :=
  { iBase with now := 1000000, fw_virtual_att_sp := spAt 1000000 }

/-- Witness for C8 as amended, at a concrete fresh front-transition tick
within the ramp time. -/
theorem c8_amended_witness :
    0 ≤ (update_transition_state pW eW iC8w
        { sBase with flight_mode := .TRANSITION_TO_FW }).pusher_throttle ∧
    (update_transition_state pW eW iC8w
        { sBase with flight_mode := .TRANSITION_TO_FW }).pusher_throttle ≤
      1 :=
  (c8_amended pW eW iC8w sBase (by norm_num [pW]) (by norm_num [pW])
      (by norm_num [pW]) (by norm_num [sBase])
      (by norm_num [sBase])).2.2.2.2
    (by norm_num [usToS, iC8w, iBase, sBase, pW])

/-- State for the C9 witness: back transition started at time 0. -/
def sC9w : State := { sBase with flight_mode := .TRANSITION_TO_MC }

/-- Inputs for the C9 witness: a fresh tick at `t = 4 s`, past
`VT_B_REV_DEL + VT_PSHER_RMP_DT = 5/2`. -/
def iC9w : Inputs :=
  { iBase with now := 4000000, fw_virtual_att_sp := spAt 4000000 }

/-- Claim C9: on a fresh `TRANSITION_TO_MC` tick with a positive ramp
time, the pusher throttle equals 0 before `VT_B_REV_DEL`, equals
`clamp((t − VT_B_REV_DEL) / VT_PSHER_RMP_DT, 0, 1) · VT_B_TRANS_THR`
from `VT_B_REV_DEL` on, and hence equals `VT_B_TRANS_THR` once
`t ≥ VT_B_REV_DEL + VT_PSHER_RMP_DT`. -/
theorem c9_back_pusher_schedule (p : Params) (e : Ext) (i : Inputs)
    (s : State) (hm : s.flight_mode = .TRANSITION_TO_MC)
    (hfresh : spFresh i = true) (hrmp : p.vt_psher_rmp_dt > 0) :
    (usToS (i.now - s.transition_start) < p.vt_b_rev_del →
      (update_transition_state p e i s).pusher_throttle = 0) ∧
    (usToS (i.now - s.transition_start) ≥ p.vt_b_rev_del →
      (update_transition_state p e i s).pusher_throttle =
        constrain ((usToS (i.now - s.transition_start) -
            p.vt_b_rev_del) / p.vt_psher_rmp_dt) 0 1 *
          p.vt_b_trans_thr) ∧
    (usToS (i.now - s.transition_start) ≥
        p.vt_b_rev_del + p.vt_psher_rmp_dt →
      (update_transition_state p e i s).pusher_throttle =
        p.vt_b_trans_thr) := by
  have hp := (update_transition_state_pusher_fresh p e i s hfresh).2.1 hm
  refine ⟨?_, ?_, ?_⟩
  · intro h
    rw [hp]
    unfold backPusherThrottle
    rw [if_neg (not_le.mpr h)]
  · intro h
    rw [hp]
    unfold backPusherThrottle
    rw [if_pos h]
  · intro h
    have h1 : usToS (i.now - s.transition_start) ≥ p.vt_b_rev_del := by
      linarith
    have h2 : (usToS (i.now - s.transition_start) - p.vt_b_rev_del) /
        p.vt_psher_rmp_dt ≥ 1 := by
      rw [ge_iff_le, le_div_iff₀ hrmp]
      linarith
    rw [hp]
    unfold backPusherThrottle
    rw [if_pos h1]
    have hc : constrain ((usToS (i.now - s.transition_start) -
        p.vt_b_rev_del) / p.vt_psher_rmp_dt) 0 1 = 1 := by
      unfold constrain
      split_ifs <;> linarith
    rw [hc, one_mul]

/-- Witness for C9 at the concrete tick past the full ramp: the pusher
throttle has reached `VT_B_TRANS_THR`. -/
theorem c9_back_pusher_schedule_witness :
    (update_transition_state pW eW iC9w sC9w).pusher_throttle =
      pW.vt_b_trans_thr :=
  (c9_back_pusher_schedule pW eW iC9w sC9w rfl
      (by norm_num [spFresh, fwSpStale, mcSpStale, iC9w, iBase, spAt,
        spZero])
      (by norm_num [pW])).2.2
    (by norm_num [usToS, iC9w, sC9w, iBase, sBase, pW])

/-- Claim C10: the front-transition ramp only divides after guarding
`VT_PSHER_RMP_DT ≤ 0`, so its explicitly-partial version is total and
agrees with the code's value everywhere; the back-transition reverse
scale divides by `VT_PSHER_RMP_DT` with no guard once
`t ≥ VT_B_REV_DEL`, so it is well-defined exactly under the precondition
`VT_PSHER_RMP_DT ≠ 0`, and under that precondition it agrees with the
code's value. -/
theorem c10_reverse_ramp_division_unguarded (p : Params) (t : ℚ)
    (h : t ≥ p.vt_b_rev_del) :
    (∀ prev u : ℚ,
      (frontPusherThrottleChecked p prev u).isSome = true) ∧
    (∀ prev u : ℚ,
      frontPusherThrottleChecked p prev u =
        some (frontPusherThrottle p prev u)) ∧
    ((backPusherThrottleChecked p t).isSome = true ↔
      p.vt_psher_rmp_dt ≠ 0) ∧
    (p.vt_psher_rmp_dt ≠ 0 →
      backPusherThrottleChecked p t =
        some (backPusherThrottle p t)) := by
  refine ⟨?_, ?_, ?_, ?_⟩
  · intro prev u
    unfold frontPusherThrottleChecked checkedDiv
    split_ifs with h1 h2 h3
    · simp
    · exact absurd (le_of_eq h3) h1
    · simp
    · simp
  · intro prev u
    unfold frontPusherThrottleChecked frontPusherThrottle checkedDiv
    split_ifs with h1 h2 h3
    · rfl
    · exact absurd (le_of_eq h3) h1
    · rfl
    · rfl
  · unfold backPusherThrottleChecked checkedDiv
    rw [if_pos h]
    split_ifs with h3 <;> simp [h3]
  · intro h0
    unfold backPusherThrottleChecked backPusherThrottle checkedDiv
    rw [if_pos h, if_pos h, if_neg h0]
    rfl

/-- Witness for C10: with `VT_B_REV_DEL = 1/2`, `VT_PSHER_RMP_DT = 2`
and `t = 4`, the checked reverse scale is defined. -/
theorem c10_reverse_ramp_division_unguarded_witness :
    (backPusherThrottleChecked pW 4).isSome = true :=
  ((c10_reverse_ramp_division_unguarded pW 4
        (by norm_num [pW])).2.2.1).mpr (by norm_num [pW])

end Standard
